import Mathlib

/-!
Verification development for the HyperDX SLO aggregation engine.

The definitions below are a shallow embedding of
`RunSLOChecksTask.execute` (packages/api/src/controllers/tenant.ts) and
of the `slo_aggregates` ClickHouse table.  Times are epoch milliseconds
(`Int`, mirroring JavaScript `Date.getTime()`); counts are `Nat`
(ClickHouse `count()` returns unsigned integers).  External behaviour
(SQL predicate evaluation, table contents, freeform query results,
failures of the ClickHouse command / insert and of the Mongo watermark
update) is abstracted into an environment record, so that the per-SLO
unit of work becomes a pure function of the environment, the tick's
`endTime` and the SLO document.
-/

/-- An event row of a ClickHouse source table.  Only the timestamp
(epoch milliseconds) is modelled concretely; attribute predicates are
interpreted by the environment's `evalPred`. -/
structure Event where
  ts : Int
deriving DecidableEq

/-- One row of the `default.slo_aggregates` ClickHouse table.  Per the
repository README the table engine is `SummingMergeTree` ordered by
`(slo_id, timestamp)`: `INSERT` appends rows, and rows sharing the key
are summed on merge/read, so the logical bucket contents are the sums
over all appended rows with that key (see `bucketVal`). -/
structure Row where
  slo_id : String
  timestamp : Int
  numerator_count : Nat
  denominator_count : Nat
deriving DecidableEq

/-- An SLO document as read from Mongo by `RunSLOChecksTask.execute`
(fields used by the task; `filter`/`goodCondition` drive Builder mode,
`numeratorQuery`/`denominatorQuery` drive Raw SQL mode). -/
structure SLO where
  sloId : String
  sourceTable : String
  filter : Option String
  goodCondition : Option String
  numeratorQuery : Option String
  denominatorQuery : Option String
  lastAggregatedAt : Option Int
deriving DecidableEq

/-- Log severity of the pino-style logger calls in the task. -/
inductive LogLevel where
  | info
  | warn
  | error
deriving DecidableEq

/-- One structured log line: severity, the `sloId` attached to the line
(if any), and the message text. -/
structure LogEntry where
  level : LogLevel
  sloId : Option String
  msg : String
deriving DecidableEq

/-- Modelled from the spec: the result of `injectTimeFilter`
(packages/api/src/controllers/slo.ts, which is not among the provided
sources).  The spec says the user-supplied count query is issued "with
the `[startTime, endTime)` bound mechanically injected (the queries
themselves carry no time filter)", so a timed query is the opaque query
text paired with the injected half-open bound. -/
structure TimedQuery where
  query : String
  startTime : Int
  endTime : Int
deriving DecidableEq

/-- Modelled from the spec: `injectTimeFilter` mechanically attaches the
`[startTime, endTime)` bound to a user-supplied count query. -/
def injectTimeFilter (q : String) (startTime endTime : Int) : TimedQuery :=
  ⟨q, startTime, endTime⟩

/-- The external world seen by one tick: interpretation of SQL predicate
strings over events, the contents of each source table, the result of a
freeform count query (`Except.error` models a rejected ClickHouse query;
`Option Nat` models `data[0]?.count`), and per-SLO failure of the
structured `INSERT ... SELECT` command, of the freeform insert, and of
the Mongo `lastAggregatedAt` update. -/
structure Env where
  evalPred : String → Event → Bool
  table : String → List Event
  ffCount : TimedQuery → Except Unit (Option Nat)
  cmdFail : String → Bool
  insFail : String → Bool
  updFail : String → Bool

/-- Milliseconds per minute (`ms('1m')`). -/
def msMinute : Int := 60000

/-- Milliseconds per hour (`ms('1h')`). -/
def msHour : Int := 3600000

/-- JavaScript truthiness of an optional string field of the Mongo
document: `undefined`/`null` and the empty string are falsy. -/
def truthyStr : Option String → Bool
  | none => false
  | some s => !(s == "")

/-- The mode test of the task: `if (slo.filter && slo.goodCondition)`
selects Builder (structured) mode. -/
def isStructured (slo : SLO) : Bool :=
  truthyStr slo.filter && truthyStr slo.goodCondition

/-- The tick's `endTime`: `now` with seconds and milliseconds zeroed
(`lastMinute.setSeconds(0, 0)`), i.e. `now` truncated down to the
minute. -/
def endTimeOf (now : Int) : Int := now - now % msMinute

/-- The aggregation-window computation of the task:
`startTime = slo.lastAggregatedAt || endTime - 1m`; return `none`
(skip) when `startTime >= endTime`; clamp to `endTime - 1h` when the
window exceeds one hour. -/
def computeWindow (last : Option Int) (endTime : Int) : Option Int :=
  let s := last.getD (endTime - msMinute)
  if endTime ≤ s then none
  else if msHour < endTime - s then some (endTime - msHour)
  else some s

/-- Formatting a time bound into the SQL text via
`toISOString().slice(0, 19)` drops the milliseconds, i.e. truncates the
bound down to the second. -/
def truncSec (t : Int) : Int := t - t % 1000

/-- ClickHouse `toStartOfMinute`: truncate a timestamp down to the
minute. -/
def bucketOfMin (t : Int) : Int := t - t % msMinute

/-- ClickHouse `count()` over the events of a table that satisfy a
predicate and fall in the half-open range `[s, e)`. -/
def countIn (events : List Event) (p : Event → Bool) (s e : Int) : Nat :=
  (events.filter (fun ev => p ev && decide (s ≤ ev.ts) && decide (ev.ts < e))).length

/-- The minute buckets that intersect the half-open window `[s, e)`:
`bucketOfMin s, bucketOfMin s + 1m, ...` while below `e`. -/
def elapsedMinutes (s e : Int) : List Int :=
  (List.range (((e - bucketOfMin s).toNat + 59999) / 60000)).map
    (fun i : Nat => bucketOfMin s + msMinute * (i : Int))

/-- Result-set semantics of the structured aggregation query
`SELECT slo_id, toStartOfMinute(Timestamp) AS timestamp,
countIf(goodCondition), count() FROM sourceTable WHERE filter AND
Timestamp >= s AND Timestamp < e GROUP BY timestamp`: one row per
minute bucket that contains at least one selected event, with
`numerator_count = countIf(filter AND goodCondition)` and
`denominator_count = count(filter)` within that bucket and window. -/
def structuredRows (sid : String) (events : List Event) (f g : Event → Bool)
    (s e : Int) : List Row :=
  (elapsedMinutes s e).filterMap (fun m =>
    let den := countIn events f (max s m) (min e (m + msMinute))
    if den = 0 then none
    else some ⟨sid, m, countIn events (fun ev => f ev && g ev) (max s m) (min e (m + msMinute)), den⟩)

/-- The `logger.info({ sloId }, 'Aggregating SLO metrics')` line at the
top of the per-SLO unit. -/
def infoEntry (sid : String) : LogEntry :=
  ⟨LogLevel.info, some sid, "Aggregating SLO metrics"⟩

/-- The `logger.error({ sloId, error }, 'Failed to check SLO')` line of
the per-SLO catch block. -/
def errEntry (sid : String) : LogEntry :=
  ⟨LogLevel.error, some sid, "Failed to check SLO"⟩

/-- Outcome of one per-SLO unit of work: the rows it appended to
`slo_aggregates`, the SLO's `lastAggregatedAt` after the unit, the log
lines it emitted, and the freeform queries it issued to ClickHouse. -/
structure UnitResult where
  rows : List Row
  wm : Option Int
  log : List LogEntry
  issued : List TimedQuery
deriving DecidableEq

/-- Builder-mode branch of the unit: run the `INSERT ... SELECT`
command (appending `structuredRows` over the second-truncated bounds on
success), then update the watermark.  A failed command or a failed
watermark update throws into the catch block, which logs the error and
leaves `lastAggregatedAt` unchanged. -/
def structuredUnit (env : Env) (slo : SLO) (startTime endTime : Int) : UnitResult :=
  let f := env.evalPred (slo.filter.getD "")
  let g := env.evalPred (slo.goodCondition.getD "")
  let rows := structuredRows slo.sloId (env.table slo.sourceTable) f g
    (truncSec startTime) (truncSec endTime)
  if env.cmdFail slo.sloId then
    ⟨[], slo.lastAggregatedAt, [infoEntry slo.sloId, errEntry slo.sloId], []⟩
  else if env.updFail slo.sloId then
    ⟨rows, slo.lastAggregatedAt, [infoEntry slo.sloId, errEntry slo.sloId], []⟩
  else
    ⟨rows, some endTime, [infoEntry slo.sloId], []⟩

/-- Raw-SQL-mode branch of the unit: build both timed queries with
`injectTimeFilter` (a missing query makes the non-null assertion feed
`undefined` into the injection, which throws), issue them, read
`data[0]?.count || 0` from each, insert a single row at `startTime`
only when some count is positive, then update the watermark.  Any
throw lands in the catch block: error logged, watermark unchanged. -/
def freeformUnit (env : Env) (slo : SLO) (startTime endTime : Int) : UnitResult :=
  match slo.numeratorQuery, slo.denominatorQuery with
  | some nq, some dq =>
    let q1 := injectTimeFilter nq startTime endTime
    let q2 := injectTimeFilter dq startTime endTime
    match env.ffCount q1, env.ffCount q2 with
    | Except.ok numOpt, Except.ok denOpt =>
      let num := numOpt.getD 0
      let den := denOpt.getD 0
      let inserted : List Row :=
        if 0 < den ∨ 0 < num then [⟨slo.sloId, startTime, num, den⟩] else []
      if (0 < den ∨ 0 < num) ∧ env.insFail slo.sloId then
        ⟨[], slo.lastAggregatedAt, [infoEntry slo.sloId, errEntry slo.sloId], [q1, q2]⟩
      else if env.updFail slo.sloId then
        ⟨inserted, slo.lastAggregatedAt, [infoEntry slo.sloId, errEntry slo.sloId], [q1, q2]⟩
      else
        ⟨inserted, some endTime, [infoEntry slo.sloId], [q1, q2]⟩
    | _, _ =>
      ⟨[], slo.lastAggregatedAt, [infoEntry slo.sloId, errEntry slo.sloId], [q1, q2]⟩
  | _, _ =>
    ⟨[], slo.lastAggregatedAt, [infoEntry slo.sloId, errEntry slo.sloId], []⟩

/-- One per-SLO unit of work of `RunSLOChecksTask.execute`: log, compute
the window (returning early when already current), then run the branch
selected by `if (slo.filter && slo.goodCondition)`. -/
def runUnit (env : Env) (endTime : Int) (slo : SLO) : UnitResult :=
  match computeWindow slo.lastAggregatedAt endTime with
  | none => ⟨[], slo.lastAggregatedAt, [infoEntry slo.sloId], []⟩
  | some startTime =>
    if isStructured slo then structuredUnit env slo startTime endTime
    else freeformUnit env slo startTime endTime

/-- One tick of `RunSLOChecksTask.execute`: `endTime` is computed once
from `now`, and every fetched SLO is dispatched as its own unit (the
PQueue only bounds parallelism; each unit carries its own try/catch, so
units are independent). -/
def runTick (env : Env) (now : Int) (slos : List SLO) : List (String × UnitResult) :=
  slos.map (fun s => (s.sloId, runUnit env (endTimeOf now) s))

/-- Logical bucket contents of the `SummingMergeTree` store: the
component-wise sums of all appended rows with key `(sid, t)`. -/
def bucketVal (store : List Row) (sid : String) (t : Int) : Nat × Nat :=
  store.foldr
    (fun r acc =>
      if r.slo_id = sid ∧ r.timestamp = t then
        (acc.1 + r.numerator_count, acc.2 + r.denominator_count)
      else acc)
    (0, 0)

/-- Modelled from the spec: `achieved` of the Status Calculator
(packages/api/src/controllers/sloStatus.ts, which is not among the
provided sources).  Compliance as a percentage; a zero denominator is
treated as 100 percent ("no events observed is not a violation") and in
particular no division is performed. -/
def achieved (numerator denominator : Nat) : ℚ :=
  if denominator = 0 then 100 else (numerator : ℚ) / (denominator : ℚ) * 100

/-- Modelled from the spec: total error budget for a window,
`(1 - target) * denominator` with `target` expressed as a percentage. -/
def errorBudgetTotal (target : ℚ) (denominator : Nat) : ℚ :=
  (1 - target / 100) * (denominator : ℚ)

/-- Modelled from the spec: used error budget, the count of bad
events. -/
def errorBudgetUsed (numerator denominator : Nat) : ℚ :=
  (denominator : ℚ) - (numerator : ℚ)

/-- Modelled from the spec: remaining error budget. -/
def errorBudgetRemaining (target : ℚ) (numerator denominator : Nat) : ℚ :=
  errorBudgetTotal target denominator - errorBudgetUsed numerator denominator

/-- Status labels of the Status Calculator (the fourth label covers
`achieved < target` with more than 10 percent of budget left). -/
inductive SLOStatus where
  | healthy
  | atRisk
  | breached
  | degraded
deriving DecidableEq

/-- Modelled from the spec: the status classification of the Status
Calculator: `healthy` when `achieved >= target`, else `breached` when
the remaining budget is nonpositive, else `atRisk` when the remaining
budget is at most 10 percent of the total. -/
def classify (target : ℚ) (numerator denominator : Nat) : SLOStatus :=
  if target ≤ achieved numerator denominator then SLOStatus.healthy
  else if errorBudgetRemaining target numerator denominator ≤ 0 then SLOStatus.breached
  else if errorBudgetRemaining target numerator denominator ≤ errorBudgetTotal target denominator / 10 then
    SLOStatus.atRisk
  else SLOStatus.degraded

/-- Environment for the C1 scenario: every event matches the predicates,
the source table holds a single event at `t = 60000`, and the Mongo
watermark update fails, so the next tick (still inside the same wall
minute) re-runs the identical window. -/
def env1 : Env :=
  ⟨fun _ _ => true, fun _ => [⟨60000⟩], fun _ => Except.ok none,
   fun _ => false, fun _ => false, fun _ => true⟩

/-- Structured SLO for the C1 scenario, watermark at `60000`. -/
def slo1 : SLO :=
  ⟨"s1", "otel_logs", some "f", some "g", none, none, some 60000⟩

/-- Trivial environment used to instantiate the window-computation
claim. -/
def env2 : Env :=
  ⟨fun _ _ => true, fun _ => [], fun _ => Except.ok none,
   fun _ => false, fun _ => false, fun _ => false⟩

/-- SLO whose watermark is five hours behind the example tick. -/
def slo2a : SLO :=
  ⟨"s2a", "otel_logs", some "f", some "g", none, none, some 18000000⟩

/-- SLO whose watermark equals the example tick's `endTime`. -/
def slo2b : SLO :=
  ⟨"s2b", "otel_logs", some "f", some "g", none, none, some 36000000⟩

/-- Environment in which every structured command fails. -/
def env3 : Env :=
  ⟨fun _ _ => true, fun _ => [], fun _ => Except.ok none,
   fun _ => true, fun _ => false, fun _ => false⟩

/-- Structured SLO processed by the failing environment `env3`. -/
def slo3 : SLO :=
  ⟨"s3", "otel_logs", some "f", some "g", none, none, some 60000⟩

/-- Environment whose only event sits at `t = 30000`, so the second
elapsed minute of the window `[0, 120000)` holds no matching event. -/
def env4 : Env :=
  ⟨fun _ _ => true, fun _ => [⟨30000⟩], fun _ => Except.ok none,
   fun _ => false, fun _ => false, fun _ => false⟩

/-- Structured SLO whose watermark makes the window `[0, 120000)`. -/
def slo4 : SLO :=
  ⟨"s4", "otel_logs", some "f", some "g", none, none, some 0⟩

/-- Environment whose freeform count queries both return `7`. -/
def env5 : Env :=
  ⟨fun _ _ => true, fun _ => [], fun _ => Except.ok (some 7),
   fun _ => false, fun _ => false, fun _ => false⟩

/-- Freeform SLO with both user queries populated. -/
def slo5 : SLO :=
  ⟨"s5", "otel_logs", none, none, some "nq", some "dq", some 60000⟩

/-- Trivial environment for the invalid-definition scenario. -/
def env6 : Env :=
  ⟨fun _ _ => true, fun _ => [], fun _ => Except.ok none,
   fun _ => false, fun _ => false, fun _ => false⟩

/-- An invalid SLO definition: neither the structured fields nor the
freeform queries are populated. -/
def islo6 : SLO :=
  ⟨"s6", "otel_logs", none, none, none, none, some 60000⟩

/-- Trivial environment for the watermark claim. -/
def env7 : Env :=
  ⟨fun _ _ => true, fun _ => [], fun _ => Except.ok none,
   fun _ => false, fun _ => false, fun _ => false⟩

/-- Structured SLO for the watermark claim. -/
def slo7 : SLO :=
  ⟨"s7", "otel_logs", some "f", some "g", none, none, some 0⟩

/-- Environment whose freeform count queries both return `0` rows of
count `0`. -/
def env9 : Env :=
  ⟨fun _ _ => true, fun _ => [], fun _ => Except.ok (some 0),
   fun _ => false, fun _ => false, fun _ => false⟩

/-- Freeform SLO for the zero-count scenario. -/
def slo9 : SLO :=
  ⟨"s9", "otel_logs", none, none, some "nq", some "dq", some 60000⟩

/-- Trivial environment for the mode-selection claim. -/
def env10 : Env :=
  ⟨fun _ _ => true, fun _ => [], fun _ => Except.ok none,
   fun _ => false, fun _ => false, fun _ => false⟩

/-- SLO with all four mode fields populated at once. -/
def slo10 : SLO :=
  ⟨"s10", "otel_logs", some "f", some "g", some "nq", some "dq", some 60000⟩

lemma computeWindow_lt {last : Option Int} {e s : Int}
    (h : computeWindow last e = some s) : ∀ w, last = some w → w < e := by
  intro w hw
  subst hw
  unfold computeWindow at h
  simp only [Option.getD_some] at h
  split at h
  · cases h
  · omega

lemma structuredUnit_shape (env : Env) (slo : SLO) (s e : Int) :
    ((structuredUnit env slo s e).wm = slo.lastAggregatedAt ∧
        (structuredUnit env slo s e).log = [infoEntry slo.sloId, errEntry slo.sloId]) ∨
      ((structuredUnit env slo s e).wm = some e ∧
        (structuredUnit env slo s e).log = [infoEntry slo.sloId]) := by
  unfold structuredUnit
  split
  · exact Or.inl ⟨rfl, rfl⟩
  · split
    · exact Or.inl ⟨rfl, rfl⟩
    · exact Or.inr ⟨rfl, rfl⟩

lemma freeformUnit_shape (env : Env) (slo : SLO) (s e : Int) :
    ((freeformUnit env slo s e).wm = slo.lastAggregatedAt ∧
        (freeformUnit env slo s e).log = [infoEntry slo.sloId, errEntry slo.sloId]) ∨
      ((freeformUnit env slo s e).wm = some e ∧
        (freeformUnit env slo s e).log = [infoEntry slo.sloId]) := by
  rcases hnq : slo.numeratorQuery with _ | nq
  · simp [freeformUnit, hnq]
  · rcases hdq : slo.denominatorQuery with _ | dq
    · simp [freeformUnit, hnq, hdq]
    · rcases hq1 : env.ffCount (injectTimeFilter nq s e) with e1 | numOpt
      · simp [freeformUnit, hnq, hdq, hq1]
      · rcases hq2 : env.ffCount (injectTimeFilter dq s e) with e2 | denOpt
        · simp [freeformUnit, hnq, hdq, hq1, hq2]
        · simp only [freeformUnit, hnq, hdq, hq1, hq2]
          split_ifs <;> simp

lemma runUnit_shape (env : Env) (e : Int) (slo : SLO) :
    ((runUnit env e slo).wm = slo.lastAggregatedAt ∧
        (runUnit env e slo).log = [infoEntry slo.sloId, errEntry slo.sloId]) ∨
      (((runUnit env e slo).wm = slo.lastAggregatedAt ∨
          ((runUnit env e slo).wm = some e ∧
            ∀ w, slo.lastAggregatedAt = some w → w < e)) ∧
        (runUnit env e slo).log = [infoEntry slo.sloId]) := by
  rcases hcw : computeWindow slo.lastAggregatedAt e with _ | s
  · simp [runUnit, hcw]
  · have hlt := computeWindow_lt hcw
    cases hM : isStructured slo with
    | true =>
      have hr : runUnit env e slo = structuredUnit env slo s e := by
        simp only [runUnit, hcw]
        rw [if_pos hM]
      rw [hr]
      rcases structuredUnit_shape env slo s e with ⟨h1, h2⟩ | ⟨h1, h2⟩
      · exact Or.inl ⟨h1, h2⟩
      · exact Or.inr ⟨Or.inr ⟨h1, hlt⟩, h2⟩
    | false =>
      have hr : runUnit env e slo = freeformUnit env slo s e := by
        simp only [runUnit, hcw]
        rw [if_neg (by rw [hM]; exact Bool.false_ne_true)]
      rw [hr]
      rcases freeformUnit_shape env slo s e with ⟨h1, h2⟩ | ⟨h1, h2⟩
      · exact Or.inl ⟨h1, h2⟩
      · exact Or.inr ⟨Or.inr ⟨h1, hlt⟩, h2⟩

lemma runUnit_wm (env : Env) (e : Int) (slo : SLO) :
    (runUnit env e slo).wm = slo.lastAggregatedAt ∨
      ((runUnit env e slo).wm = some e ∧
        ∀ w, slo.lastAggregatedAt = some w → w < e) := by
  rcases runUnit_shape env e slo with ⟨h1, _⟩ | ⟨h1, _⟩
  · exact Or.inl h1
  · exact h1

lemma runUnit_err (env : Env) (e : Int) (slo : SLO)
    (h : ∃ entry ∈ (runUnit env e slo).log, entry.level = LogLevel.error) :
    (runUnit env e slo).wm = slo.lastAggregatedAt ∧
      errEntry slo.sloId ∈ (runUnit env e slo).log := by
  rcases runUnit_shape env e slo with ⟨h1, h2⟩ | ⟨_, h2⟩
  · exact ⟨h1, by rw [h2]; simp⟩
  · exfalso
    obtain ⟨entry, hmem, hlvl⟩ := h
    rw [h2] at hmem
    simp only [List.mem_singleton] at hmem
    subst hmem
    simp [infoEntry] at hlvl

/-- Claim C2: for every SLO processed in a tick, `startTime` is
`lastAggregatedAt` when set and otherwise `endTime` minus one minute;
when `startTime >= endTime` the SLO is skipped entirely (no rows, no
issued queries, watermark unchanged, only the initial info log); and
when the window exceeds one hour `startTime` is clamped to `endTime`
minus one hour. -/
theorem aggregation_window_computation (env : Env) (e : Int) (slo : SLO) :
    (slo.lastAggregatedAt = none →
      computeWindow slo.lastAggregatedAt e = some (e - msMinute)) ∧
    (∀ w, slo.lastAggregatedAt = some w → e ≤ w →
      computeWindow slo.lastAggregatedAt e = none ∧
      runUnit env e slo = ⟨[], slo.lastAggregatedAt, [infoEntry slo.sloId], []⟩) ∧
    (∀ w, slo.lastAggregatedAt = some w → w < e → msHour < e - w →
      computeWindow slo.lastAggregatedAt e = some (e - msHour)) ∧
    (∀ w, slo.lastAggregatedAt = some w → w < e → e - w ≤ msHour →
      computeWindow slo.lastAggregatedAt e = some w) := by
  refine ⟨?_, ?_, ?_, ?_⟩
  · intro h
    rw [h]
    unfold computeWindow msMinute msHour
    simp only [Option.getD_none]
    split
    · omega
    · split
      · omega
      · rfl
  · intro w hw he
    have hcw : computeWindow slo.lastAggregatedAt e = none := by
      rw [hw]
      unfold computeWindow
      simp only [Option.getD_some]
      rw [if_pos he]
    refine ⟨hcw, ?_⟩
    unfold runUnit
    rw [hcw]
  · intro w hw hlt hcap
    rw [hw]
    unfold computeWindow
    simp only [Option.getD_some]
    rw [if_neg (by omega), if_pos hcap]
  · intro w hw hlt hcap
    rw [hw]
    unfold computeWindow
    simp only [Option.getD_some]
    rw [if_neg (by omega), if_neg (by omega)]

/-- Witness for claim C2: a watermark five hours behind a tick at
`endTime = 36000000` is clamped to `endTime` minus one hour
(`32400000`), and a watermark equal to `endTime` makes the unit skip. -/
theorem aggregation_window_computation_example :
    computeWindow slo2a.lastAggregatedAt 36000000 = some 32400000 ∧
      computeWindow slo2b.lastAggregatedAt 36000000 = none := by
  constructor
  · have h := (aggregation_window_computation env2 36000000 slo2a).2.2.1
      18000000 rfl (by norm_num) (by norm_num [msHour])
    simpa [msHour] using h
  · exact ((aggregation_window_computation env2 36000000 slo2b).2.1
      36000000 rfl (by norm_num)).1

/-- Claim C3: a failing per-SLO unit logs the error together with the
SLO identifier and leaves `lastAggregatedAt` unchanged; and every SLO's
tick outcome is exactly its own standalone unit of work, so one SLO's
failure neither aborts the tick nor affects any sibling SLO. -/
theorem per_slo_failure_isolation (env : Env) (now : Int) (slos : List SLO)
    (slo : SLO) (hmem : slo ∈ slos) :
    (slo.sloId, runUnit env (endTimeOf now) slo) ∈ runTick env now slos ∧
    ((∃ entry ∈ (runUnit env (endTimeOf now) slo).log, entry.level = LogLevel.error) →
      (runUnit env (endTimeOf now) slo).wm = slo.lastAggregatedAt ∧
        errEntry slo.sloId ∈ (runUnit env (endTimeOf now) slo).log) := by
  constructor
  · unfold runTick
    exact List.mem_map_of_mem _ hmem
  · exact runUnit_err env (endTimeOf now) slo

/-- Witness for claim C3: with every structured command failing, the
unit for `slo3` logs the error with its identifier and leaves the
watermark untouched. -/
theorem per_slo_failure_isolation_example :
    (runUnit env3 (endTimeOf 120000) slo3).wm = slo3.lastAggregatedAt ∧
      errEntry slo3.sloId ∈ (runUnit env3 (endTimeOf 120000) slo3).log :=
  (per_slo_failure_isolation env3 120000 [slo3] slo3 (by simp)).2 (by decide)

/-- Claim C7: the tick's `endTime` is the current time truncated down to
the minute (minute-aligned, at most `now`, within a minute of `now`),
and the watermark either stays unchanged or is set to exactly that
minute-aligned `endTime`, which is strictly greater than any previous
watermark; hence `lastAggregatedAt` is monotonically non-decreasing
across ticks and never covers a partially elapsed minute. -/
theorem watermark_monotone_minute_aligned (env : Env) (now : Int) (slo : SLO) :
    endTimeOf now % msMinute = 0 ∧
    endTimeOf now ≤ now ∧
    now - endTimeOf now < msMinute ∧
    ((runUnit env (endTimeOf now) slo).wm = slo.lastAggregatedAt ∨
      ((runUnit env (endTimeOf now) slo).wm = some (endTimeOf now) ∧
        ∀ w, slo.lastAggregatedAt = some w → w < endTimeOf now)) := by
  refine ⟨?_, ?_, ?_, runUnit_wm env (endTimeOf now) slo⟩
  · unfold endTimeOf msMinute
    omega
  · unfold endTimeOf msMinute
    omega
  · unfold endTimeOf msMinute
    omega

/-- Witness for claim C7: the watermark facts instantiated at
`now = 123456` for `slo7`. -/
theorem watermark_monotone_minute_aligned_example :
    endTimeOf 123456 % msMinute = 0 ∧
    endTimeOf 123456 ≤ 123456 ∧
    123456 - endTimeOf 123456 < msMinute ∧
    ((runUnit env7 (endTimeOf 123456) slo7).wm = slo7.lastAggregatedAt ∨
      ((runUnit env7 (endTimeOf 123456) slo7).wm = some (endTimeOf 123456) ∧
        ∀ w, slo7.lastAggregatedAt = some w → w < endTimeOf 123456)) :=
  watermark_monotone_minute_aligned env7 123456 slo7

/-- Claim C8: a zero denominator raises no division error: `achieved`
resolves to 100 percent and the classification resolves to healthy (for
any target of at most 100 percent). -/
theorem zero_denominator_healthy (target : ℚ) (numerator : Nat)
    (h : target ≤ 100) :
    achieved numerator 0 = 100 ∧
      classify target numerator 0 = SLOStatus.healthy := by
  have ha : achieved numerator 0 = 100 := by simp [achieved]
  refine ⟨ha, ?_⟩
  unfold classify
  rw [ha, if_pos h]

/-- Witness for claim C8: with a target of 99 percent and no observed
events, `achieved` is 100 and the status is healthy. -/
theorem zero_denominator_healthy_example :
    achieved 5 0 = 100 ∧ classify 99 5 0 = SLOStatus.healthy :=
  zero_denominator_healthy 99 5 (by norm_num)

/-- Claim C10: mode selection depends only on the truthiness of
`filter` and `goodCondition`: changing the freeform queries changes
neither the selected mode nor (in structured mode) the unit's entire
outcome; both predicates populated selects the structured branch, and a
missing (or empty) predicate sends the unit to the freeform branch. -/
theorem mode_selection_by_filter_and_condition (env : Env) (e : Int)
    (slo : SLO) (q1 q2 : Option String) :
    isStructured { slo with numeratorQuery := q1, denominatorQuery := q2 } = isStructured slo ∧
    (truthyStr slo.filter = true → truthyStr slo.goodCondition = true →
      isStructured slo = true) ∧
    ((truthyStr slo.filter = false ∨ truthyStr slo.goodCondition = false) →
      isStructured slo = false) ∧
    (isStructured slo = true →
      runUnit env e { slo with numeratorQuery := q1, denominatorQuery := q2 } =
        runUnit env e slo) ∧
    (isStructured slo = false →
      ∀ s, computeWindow slo.lastAggregatedAt e = some s →
        runUnit env e slo = freeformUnit env slo s e) := by
  refine ⟨rfl, ?_, ?_, ?_, ?_⟩
  · intro h1 h2
    unfold isStructured
    rw [h1, h2]
    rfl
  · intro h
    unfold isStructured
    rcases h with h | h <;> rw [h] <;> simp
  · intro h
    unfold runUnit
    cases hcw : computeWindow slo.lastAggregatedAt e with
    | none => rfl
    | some s =>
      have h2 : isStructured { slo with numeratorQuery := q1, denominatorQuery := q2 } = true := h
      simp only [h, h2, if_true]
      rfl
  · intro h s hcw
    unfold runUnit
    rw [hcw]
    simp only [h]
    rfl

/-- Witness for claim C10: for `slo10`, whose four mode fields are all
populated, erasing both freeform queries leaves the unit's outcome
unchanged — the structured path is taken and the queries are never
read. -/
theorem mode_selection_by_filter_and_condition_example :
    runUnit env10 120000 { slo10 with numeratorQuery := none, denominatorQuery := none } =
      runUnit env10 120000 slo10 :=
  (mode_selection_by_filter_and_condition env10 120000 slo10 none none).2.2.2.1 rfl

lemma runUnit_eq_freeform (env : Env) (e s : Int) (slo : SLO)
    (hw : computeWindow slo.lastAggregatedAt e = some s)
    (hm : isStructured slo = false) :
    runUnit env e slo = freeformUnit env slo s e := by
  simp only [runUnit, hw]
  rw [if_neg (by rw [hm]; exact Bool.false_ne_true)]

lemma bucketVal_single (sid2 : String) (t2 : Int) (n d : Nat) (sid : String) (t : Int) :
    bucketVal [⟨sid2, t2, n, d⟩] sid t =
      if sid2 = sid ∧ t2 = t then (n, d) else (0, 0) := by
  unfold bucketVal
  simp only [List.foldr]
  by_cases h : sid2 = sid ∧ t2 = t
  · rw [if_pos h, if_pos h]
    simp
  · rw [if_neg h, if_neg h]

/-- Claim C1 is violated by the code: the structured path INSERTs its
recomputed per-minute rows into the SummingMergeTree table
`slo_aggregates`, so re-running the aggregation over the identical
window `[60000, 120000)` (here: the watermark update failed, and the
next tick inside the same wall minute retries the same window) appends
a duplicate row and the bucket sums double from `(1, 1)` to `(2, 2)`
instead of staying identical. -/
theorem structured_reaggregation_not_idempotent :
    bucketVal ((runUnit env1 120000 slo1).rows ++ (runUnit env1 120000 slo1).rows)
        "s1" 60000 ≠
      bucketVal (runUnit env1 120000 slo1).rows "s1" 60000 := by decide

/-- Claim C5: in freeform mode the `[startTime, endTime)` bound is
mechanically injected into both user queries exactly as issued, the
resulting count pair is attributed to the bucket at `startTime` (every
other bucket receives nothing), and on success `lastAggregatedAt`
advances to `endTime` exactly as in structured mode. -/
theorem freeform_injects_bounds_and_advances (env : Env) (e s : Int) (slo : SLO)
    (nq dq : String) (numOpt denOpt : Option Nat)
    (hw : computeWindow slo.lastAggregatedAt e = some s)
    (hm : isStructured slo = false)
    (hnq : slo.numeratorQuery = some nq) (hdq : slo.denominatorQuery = some dq)
    (hn : env.ffCount (injectTimeFilter nq s e) = Except.ok numOpt)
    (hd : env.ffCount (injectTimeFilter dq s e) = Except.ok denOpt)
    (hins : env.insFail slo.sloId = false)
    (hupd : env.updFail slo.sloId = false) :
    (runUnit env e slo).issued = [injectTimeFilter nq s e, injectTimeFilter dq s e] ∧
    (∀ sid t, bucketVal (runUnit env e slo).rows sid t =
      if sid = slo.sloId ∧ t = s then (numOpt.getD 0, denOpt.getD 0) else (0, 0)) ∧
    (runUnit env e slo).wm = some e := by
  have hff : freeformUnit env slo s e =
      ⟨(if 0 < denOpt.getD 0 ∨ 0 < numOpt.getD 0 then
          [⟨slo.sloId, s, numOpt.getD 0, denOpt.getD 0⟩] else []), some e,
        [infoEntry slo.sloId], [injectTimeFilter nq s e, injectTimeFilter dq s e]⟩ := by
    simp [freeformUnit, hnq, hdq, hn, hd, hins, hupd]
  rw [runUnit_eq_freeform env e s slo hw hm, hff]
  refine ⟨rfl, ?_, rfl⟩
  intro sid t
  dsimp only
  by_cases hz : 0 < denOpt.getD 0 ∨ 0 < numOpt.getD 0
  · rw [if_pos hz, bucketVal_single]
    by_cases hc : sid = slo.sloId ∧ t = s
    · rw [if_pos ⟨hc.1.symm, hc.2.symm⟩, if_pos hc]
    · rw [if_neg (fun h => hc ⟨h.1.symm, h.2.symm⟩), if_neg hc]
  · rw [if_neg hz]
    push_neg at hz
    have h1 : numOpt.getD 0 = 0 := by omega
    have h2 : denOpt.getD 0 = 0 := by omega
    rw [h1, h2]
    simp [bucketVal]

/-- Witness for claim C5: both freeform queries of `slo5` return `7`;
the issued queries carry the injected bound `[60000, 120000)`, the
bucket at `60000` receives `(7, 7)`, and the watermark advances to
`120000`. -/
theorem freeform_injects_bounds_and_advances_example :
    (runUnit env5 120000 slo5).issued =
        [injectTimeFilter "nq" 60000 120000, injectTimeFilter "dq" 60000 120000] ∧
      bucketVal (runUnit env5 120000 slo5).rows "s5" 60000 = (7, 7) ∧
      (runUnit env5 120000 slo5).wm = some 120000 := by
  have h := freeform_injects_bounds_and_advances env5 120000 60000 slo5 "nq" "dq"
    (some 7) (some 7) (by decide) rfl rfl rfl rfl rfl rfl rfl
  refine ⟨h.1, ?_, h.2.2⟩
  have h2 := h.2.1 "s5" 60000
  simpa using h2

/-- Claim C9: in freeform mode, when both counts for the window are
zero, no row at all is written to the aggregate store, yet
`lastAggregatedAt` still advances to `endTime`. -/
theorem freeform_zero_counts_skip_insert (env : Env) (e s : Int) (slo : SLO)
    (nq dq : String) (numOpt denOpt : Option Nat)
    (hw : computeWindow slo.lastAggregatedAt e = some s)
    (hm : isStructured slo = false)
    (hnq : slo.numeratorQuery = some nq) (hdq : slo.denominatorQuery = some dq)
    (hn : env.ffCount (injectTimeFilter nq s e) = Except.ok numOpt)
    (hd : env.ffCount (injectTimeFilter dq s e) = Except.ok denOpt)
    (h0n : numOpt.getD 0 = 0) (h0d : denOpt.getD 0 = 0)
    (hupd : env.updFail slo.sloId = false) :
    (runUnit env e slo).rows = [] ∧ (runUnit env e slo).wm = some e := by
  rw [runUnit_eq_freeform env e s slo hw hm]
  simp [freeformUnit, hnq, hdq, hn, hd, h0n, h0d, hupd]

/-- Witness for claim C9: both queries of `slo9` return a count of `0`;
no row is appended and the watermark still advances to `120000`. -/
theorem freeform_zero_counts_skip_insert_example :
    (runUnit env9 120000 slo9).rows = [] ∧
      (runUnit env9 120000 slo9).wm = some 120000 :=
  freeform_zero_counts_skip_insert env9 120000 60000 slo9 "nq" "dq"
    (some 0) (some 0) (by decide) rfl rfl rfl rfl rfl rfl rfl rfl

/-- Claim C6 as stated is false: an SLO definition that is neither
fully structured nor fully freeform is not "skipped with a logged
warning" — the code has no such validation.  Processing `islo6` (all
four mode fields empty) emits no warning-level log line at all; the
unit instead fails inside the freeform branch and logs at error
level. -/
theorem invalid_definition_no_warning :
    (∀ entry ∈ (runUnit env6 120000 islo6).log, entry.level ≠ LogLevel.warn) ∧
      errEntry "s6" ∈ (runUnit env6 120000 islo6).log := by decide

/-- Claim C6 amended: an SLO definition that is neither fully
structured nor fully freeform falls into the freeform branch, whose
missing-query non-null assertion makes the unit throw; the error is
caught and logged at error level with the SLO identifier (never at
warning level), nothing is written, the watermark is unchanged, and the
tick itself is not crashed (the unit still returns normally). -/
theorem invalid_definition_error_logged (env : Env) (e s : Int) (slo : SLO)
    (hw : computeWindow slo.lastAggregatedAt e = some s)
    (hm : isStructured slo = false)
    (hq : slo.numeratorQuery = none ∨ slo.denominatorQuery = none) :
    (runUnit env e slo).rows = [] ∧
    (runUnit env e slo).wm = slo.lastAggregatedAt ∧
    errEntry slo.sloId ∈ (runUnit env e slo).log ∧
    ∀ entry ∈ (runUnit env e slo).log, entry.level ≠ LogLevel.warn := by
  have hres : freeformUnit env slo s e =
      ⟨[], slo.lastAggregatedAt, [infoEntry slo.sloId, errEntry slo.sloId], []⟩ := by
    rcases hq with h | h
    · simp [freeformUnit, h]
    · rcases hnq2 : slo.numeratorQuery with _ | nq
      · simp [freeformUnit, hnq2]
      · simp [freeformUnit, hnq2, h]
  rw [runUnit_eq_freeform env e s slo hw hm, hres]
  refine ⟨rfl, rfl, by simp, ?_⟩
  intro entry hmem
  simp only [List.mem_cons, List.mem_singleton, List.not_mem_nil, or_false] at hmem
  rcases hmem with rfl | rfl
  · simp [infoEntry]
  · simp [errEntry]

/-- Witness for claim C6 (amended): processing the invalid definition
`islo6` writes nothing, keeps the watermark, logs the error with the
identifier, and emits no warning. -/
theorem invalid_definition_error_logged_example :
    (runUnit env6 120000 islo6).rows = [] ∧
    (runUnit env6 120000 islo6).wm = islo6.lastAggregatedAt ∧
    errEntry islo6.sloId ∈ (runUnit env6 120000 islo6).log ∧
    ∀ entry ∈ (runUnit env6 120000 islo6).log, entry.level ≠ LogLevel.warn :=
  invalid_definition_error_logged env6 120000 60000 islo6 (by decide) rfl (Or.inl rfl)

lemma truncSec_eq_of_minute_aligned {t : Int} (h : t % msMinute = 0) :
    truncSec t = t := by
  have h2 := Int.emod_emod_of_dvd t (by norm_num : (1000 : Int) ∣ 60000)
  unfold msMinute at h
  unfold truncSec
  omega

lemma mem_elapsedMinutes {s e m : Int} (hs : s % msMinute = 0) :
    m ∈ elapsedMinutes s e ↔ (s ≤ m ∧ m < e ∧ m % msMinute = 0) := by
  have hb : bucketOfMin s = s := by
    unfold bucketOfMin
    omega
  unfold elapsedMinutes
  rw [hb]
  unfold msMinute at *
  constructor
  · intro hm
    obtain ⟨i, hi, hieq⟩ := List.mem_map.mp hm
    rw [List.mem_range] at hi
    subst hieq
    refine ⟨by omega, by omega, by omega⟩
  · rintro ⟨h1, h2, h3⟩
    exact List.mem_map.mpr
      ⟨((m - s) / 60000).toNat, List.mem_range.mpr (by omega), by omega⟩

lemma elapsedMinutes_nodup (s e : Int) : (elapsedMinutes s e).Nodup := by
  unfold elapsedMinutes
  refine List.Nodup.map ?_ (List.nodup_range _)
  intro a b hab
  dsimp only at hab
  unfold msMinute at hab
  omega

lemma mem_structuredRows {sid sid2 : String} {events : List Event} {f g : Event → Bool}
    {s e m : Int} {nc dc : Nat} (hs : s % msMinute = 0) (he : e % msMinute = 0) :
    (⟨sid2, m, nc, dc⟩ : Row) ∈ structuredRows sid events f g s e ↔
      (sid2 = sid ∧ s ≤ m ∧ m < e ∧ m % msMinute = 0 ∧
        dc = countIn events f m (m + msMinute) ∧ 0 < dc ∧
        nc = countIn events (fun ev => f ev && g ev) m (m + msMinute)) := by
  unfold structuredRows
  rw [List.mem_filterMap]
  constructor
  · rintro ⟨a, ha, hfa⟩
    rw [mem_elapsedMinutes hs] at ha
    obtain ⟨ha1, ha2, ha3⟩ := ha
    dsimp only at hfa
    split at hfa
    · exact absurd hfa (by simp)
    · rename_i hden
      simp only [Option.some.injEq, Row.mk.injEq] at hfa
      obtain ⟨hsid, ham, hnc, hdc⟩ := hfa
      subst ham
      have hmax : max s a = a := max_eq_right ha1
      have hmin : min e (a + msMinute) = a + msMinute := by
        refine min_eq_right ?_
        unfold msMinute at *
        omega
      rw [hmax, hmin] at hnc hdc hden
      refine ⟨hsid.symm, ha1, ha2, ha3, hdc.symm, by omega, hnc.symm⟩
  · rintro ⟨rfl, h1, h2, h3, hdc, hpos, hnc⟩
    refine ⟨m, ?_, ?_⟩
    · rw [mem_elapsedMinutes hs]
      exact ⟨h1, h2, h3⟩
    · dsimp only
      have hmax : max s m = m := max_eq_right h1
      have hmin : min e (m + msMinute) = m + msMinute := by
        refine min_eq_right ?_
        unfold msMinute at *
        omega
      rw [hmax, hmin, if_neg (by omega), ← hdc, ← hnc]

lemma structuredRows_timestamps_nodup (sid : String) (events : List Event)
    (f g : Event → Bool) (s e : Int) :
    ((structuredRows sid events f g s e).map Row.timestamp).Nodup := by
  unfold structuredRows
  rw [List.map_filterMap]
  refine List.Nodup.filterMap ?_ (elapsedMinutes_nodup s e)
  intro a b c hca hcb
  dsimp only at hca hcb
  split at hca
  · exact absurd hca (by simp)
  · split at hcb
    · exact absurd hcb (by simp)
    · simp at hca hcb
      omega

lemma runUnit_eq_structured (env : Env) (e s : Int) (slo : SLO)
    (hw : computeWindow slo.lastAggregatedAt e = some s)
    (hm : isStructured slo = true) :
    runUnit env e slo = structuredUnit env slo s e := by
  simp only [runUnit, hw]
  rw [if_pos hm]

lemma structuredUnit_rows (env : Env) (slo : SLO) (s e : Int)
    (hcmd : env.cmdFail slo.sloId = false) :
    (structuredUnit env slo s e).rows =
      structuredRows slo.sloId (env.table slo.sourceTable)
        (env.evalPred (slo.filter.getD "")) (env.evalPred (slo.goodCondition.getD ""))
        (truncSec s) (truncSec e) := by
  simp only [structuredUnit, hcmd, Bool.false_eq_true, if_false]
  split_ifs <;> rfl

/-- Claim C4 as stated is false: the grouped query does not produce one
bucket row per elapsed minute.  For the window `[0, 120000)` (two
elapsed minutes) over a table whose only event sits at `t = 30000`, the
minute bucket `60000` contains no matching event, so the `GROUP BY`
emits no row for it. -/
theorem structured_rows_skip_empty_minute :
    ¬ ∀ m ∈ elapsedMinutes 0 120000,
        ∃ r ∈ (runUnit env4 120000 slo4).rows, r.timestamp = m := by decide

/-- Claim C4 amended: in structured mode the unit issues one grouped
query over `[startTime, endTime)` against the SLO's source table
restricted by `filter`, producing at most one bucket row per minute,
and exactly one row for each elapsed minute that contains at least one
event satisfying `filter` — with `numerator_count` the count of events
satisfying `filter AND goodCondition` and `denominator_count` the count
of events satisfying `filter` in that minute; minutes of the window
with no matching event produce no row.  (Bounds stated for the
minute-aligned windows the scheduler produces.) -/
theorem structured_rows_of_grouped_query (env : Env) (e s : Int) (slo : SLO)
    (f g : String)
    (hf : slo.filter = some f) (hg : slo.goodCondition = some g)
    (hst : isStructured slo = true)
    (hw : computeWindow slo.lastAggregatedAt e = some s)
    (hs : s % msMinute = 0) (he : e % msMinute = 0)
    (hcmd : env.cmdFail slo.sloId = false) :
    ((runUnit env e slo).rows.map Row.timestamp).Nodup ∧
    ∀ (m : Int) (nc dc : Nat),
      (⟨slo.sloId, m, nc, dc⟩ : Row) ∈ (runUnit env e slo).rows ↔
        (s ≤ m ∧ m < e ∧ m % msMinute = 0 ∧
          dc = countIn (env.table slo.sourceTable) (env.evalPred f) m (m + msMinute) ∧
          0 < dc ∧
          nc = countIn (env.table slo.sourceTable)
            (fun ev => env.evalPred f ev && env.evalPred g ev) m (m + msMinute)) := by
  have hrows : (runUnit env e slo).rows =
      structuredRows slo.sloId (env.table slo.sourceTable)
        (env.evalPred f) (env.evalPred g) s e := by
    rw [runUnit_eq_structured env e s slo hw hst, structuredUnit_rows env slo s e hcmd,
      hf, hg]
    simp only [Option.getD_some]
    rw [truncSec_eq_of_minute_aligned hs, truncSec_eq_of_minute_aligned he]
  rw [hrows]
  refine ⟨structuredRows_timestamps_nodup _ _ _ _ _ _, ?_⟩
  intro m nc dc
  rw [mem_structuredRows hs he]
  simp

/-- Witness for claim C4 (amended): for the window `[0, 120000)` of
`slo4` the first minute holds the single matching event and yields the
row `(s4, 0, 1, 1)`. -/
theorem structured_rows_of_grouped_query_example :
    (⟨"s4", 0, 1, 1⟩ : Row) ∈ (runUnit env4 120000 slo4).rows :=
  ((structured_rows_of_grouped_query env4 120000 0 slo4 "f" "g" rfl rfl (by decide)
      (by decide) (by decide) (by decide) rfl).2 0 1 1).mpr (by decide)
